import Mathlib

/-!
Verification of the to-do list application (two evolutionary versions).

The source has two versions of the app:
* `Early` — `src/app/index.tsx`: in-memory only; `TodoItem = {id, value, done}`;
  the list shown is `filteredTodos.sort((a,b) => a.done === b.done ? 0 : a.done ? 1 : -1)`.
* `Persisted` — `src/unnamed/part_000`: SQLite-backed; `TodoItem = {id, text, done, createdAt}`;
  the list shown is `todos.filter(pred).sort((a,b) => aDate === bDate ? 0 : aDate < bDate ? 1 : -1)`.

JavaScript's `Array.prototype.sort` is required to be stable (ES2019).  We model it
by a stable insertion sort `jsSort le` where `le a b` means `comparator a b ≤ 0`:
an element is inserted before the first element `y` with `le x y`, which places an
element inserted from the left of the original list before every element it ties with,
exactly the stable order.
-/

/-- Model of JavaScript's stable `Array.prototype.sort` (insertion step):
insert `x` before the first `y` with `le x y`. -/
def jsInsert {α : Type} (le : α → α → Bool) (x : α) : List α → List α
  | [] => [x]
  | y :: ys => if le x y then x :: y :: ys else y :: jsInsert le x ys

/-- Model of JavaScript's stable `Array.prototype.sort`: stable insertion sort,
with `le a b = (comparator a b ≤ 0)`. -/
def jsSort {α : Type} (le : α → α → Bool) : List α → List α
  | [] => []
  | x :: xs => jsInsert le x (jsSort le xs)

/-- Model of JavaScript's `String.prototype.trim` (the `text.trim()` call in both
versions of `AddTodoForm.handlePress`): strips leading and trailing whitespace. -/
def jsTrim (s : String) : String :=
  String.mk (((s.data.dropWhile Char.isWhitespace).reverse.dropWhile
    Char.isWhitespace).reverse)

/-! ## Early version: `src/app/index.tsx`

`TodoItem = { id: uuid; value: string; done: boolean }`, purely in-memory state.
-/

namespace Early

/-- Embeds `type TodoItem = { id: uuid; value: string; done: boolean }` (index.tsx line 10). -/
structure TodoItem where
  id : String
  value : String
  done : Bool
deriving Repr, DecidableEq

/-- Embeds `type FilterType = "all" | "pending" | "completed"` (index.tsx line 11). -/
inductive FilterType where
  | all
  | pending
  | completed
deriving Repr, DecidableEq

/-- Embeds `addTodo` (index.tsx lines 97-99): `setTodos([...todos, { id: crypto.randomUUID(), value: text, done: false }])`.
The freshly generated UUID is the `newId` argument (environment-supplied randomness). -/
def addTodo (todos : List TodoItem) (newId : String) (text : String) : List TodoItem :=
  todos ++ [{ id := newId, value := text, done := false }]

/-- Embeds `toggleTodo` (index.tsx lines 101-103):
`todos.map(todo => todo.id === id ? { ...todo, done: !todo.done } : todo)`. -/
def toggleTodo (todos : List TodoItem) (id : String) : List TodoItem :=
  todos.map fun todo => if todo.id == id then { todo with done := !todo.done } else todo

/-- Embeds `getFilteredTodos` (index.tsx lines 105-114).  For the `default` ("all") case it
returns the `todos` state array itself, not a copy — the aliasing matters below. -/
def getFilteredTodos (todos : List TodoItem) (currentFilter : FilterType) : List TodoItem :=
  match currentFilter with
  | .pending => todos.filter fun todo => !todo.done
  | .completed => todos.filter fun todo => todo.done
  | .all => todos

/-- The sort comparator of index.tsx line 135:
`(a, b) => a.done === b.done ? 0 : a.done ? 1 : -1`
(`===` on booleans is value equality). -/
def compareFn (a b : TodoItem) : Int :=
  if a.done == b.done then 0 else if a.done then 1 else -1

/-- Holds when `a` may stay before `b` under the comparator: `compareFn a b ≤ 0`. -/
def sortLe (a b : TodoItem) : Bool := compareFn a b ≤ 0

/-- The render computation of index.tsx lines 116 and 133-138: the `FlatList` data is
`filteredTodos.sort(comparator)`.  `Array.prototype.sort` sorts in place; for filter
"all", `getFilteredTodos` returns the `todos` state array itself, so sorting reorders
the state array; for "pending"/"completed", `filter` allocated a fresh array and the
state is untouched.  Returns `(data shown, todos state array content after render)`. -/
def render (todos : List TodoItem) (currentFilter : FilterType) :
    List TodoItem × List TodoItem :=
  match currentFilter with
  | .all =>
      let s := jsSort sortLe todos
      (s, s)
  | .pending => (jsSort sortLe (todos.filter fun todo => !todo.done), todos)
  | .completed => (jsSort sortLe (todos.filter fun todo => todo.done), todos)

/-- Embeds `AddTodoForm.handlePress` (index.tsx lines 37-43): rejects input whose trim is
empty without touching anything; otherwise calls `addTodoHandler(text)` — note: the
untrimmed `text` — and clears the field.  Returns `(form text, todos)` afterwards. -/
def handlePress (text : String) (todos : List TodoItem) (newId : String) :
    String × List TodoItem :=
  if (jsTrim text).length == 0 then (text, todos)
  else ("", addTodo todos newId text)

end Early

/-! ## Persisted version: `src/unnamed/part_000`

`TodoItem = { id, text, done, createdAt }` (from `./types`), SQLite-backed store.
The data-access functions (`addTodoToDB`, `getAllTodos`, `toggleTodoStatus`,
`migrateDB`) live in `./db`, which is not among the sources; they are modelled
from the spec (§4.1) where needed.
-/

namespace Persisted

/-- Embeds the `TodoItem` of the persisted version (fields as used throughout part_000:
`id`, `text`, `done`, `createdAt`).  `createdAt` is the millisecond timestamp of
the task's `Date`; `none` models a missing/null date (the code guards with
`a.createdAt ?? new Date(0)`). -/
structure TodoItem where
  id : String
  text : String
  done : Bool
  createdAt : Option Nat
deriving Repr, DecidableEq

/-- Embeds `enum FilterOptions { All, Pending, Done }` (part_000 lines 83-87). -/
inductive FilterOptions where
  | All
  | Pending
  | Done
deriving Repr, DecidableEq

/-- The `TodoList` component state (part_000 lines 184-185):
`todos` and the user-visible error banner text `dbError` (`none` = no banner). -/
structure StoreState where
  todos : List TodoItem
  dbError : Option String
deriving Repr, DecidableEq

/-- Modelled from the spec: `addTodoToDB` lives in `./db`, which is not among the
sources.  §4.1 Create: "inserts a new row with generated id, given text,
`done = false`, and current timestamp".  The generated row key is `newId`. -/
def addTodoToDB (db : List TodoItem) (newId : String) (text : String) (now : Nat) :
    List TodoItem :=
  db ++ [{ id := newId, text := text, done := false, createdAt := some now }]

/-- Modelled from the spec: `getAllTodos` lives in `./db`, which is not among the
sources.  §4.1 Read-all: "returns every stored task, unordered (ordering is the
caller's responsibility)"; modelled as returning the rows in table order. -/
def getAllTodos (db : List TodoItem) : List TodoItem := db

/-- Modelled from the spec: `toggleTodoStatus` lives in `./db`, which is not among
the sources.  §4.1 Toggle: "flips `done` for the row matching a given id; no-op
... if the id does not exist". -/
def toggleTodoStatus (db : List TodoItem) (id : String) : List TodoItem :=
  db.map fun row => if row.id == id then { row with done := !row.done } else row

/-- Modelled from the spec: the store-level state the migration routine acts on —
the integer schema-version register and the todos table (`none` while the table
does not exist; `CREATE TABLE IF NOT EXISTS` keeps an existing table's rows). -/
structure DBState where
  userVersion : Nat
  todosTable : Option (List TodoItem)
deriving Repr, DecidableEq

/-- Modelled from the spec: `migrateDB` lives in `./db`, which is not among the
sources.  §4.1: "Reads a stored schema version number; if the stored version is
below the code's target version, executes the table-creation statement
(idempotent ... `CREATE TABLE IF NOT EXISTS`) and then writes the new version
number back.  If the stored version already equals the target, migration is a
no-op."  `target` is the code's target version constant. -/
def migrateDB (target : Nat) (s : DBState) : DBState :=
  if s.userVersion < target then
    { userVersion := target, todosTable := some (s.todosTable.getD []) }
  else s

/-- The filter callback of part_000 lines 245-255 (the `switch` on `filter`;
the `default` branch repeats the `All` behaviour and is unreachable). -/
def filterPred (filter : FilterOptions) (todo : TodoItem) : Bool :=
  match filter with
  | .All => true
  | .Pending => !todo.done
  | .Done => todo.done

/-- Embeds `a.createdAt ?? new Date(0)`, taken to its millisecond value (JS `<` on `Date`s
compares their primitive numeric values). -/
def dateVal (t : TodoItem) : Nat := t.createdAt.getD 0

/-- The sort comparator of part_000 lines 256-260:
`(a, b) => { const aDate = a.createdAt ?? new Date(0); const bDate = ...;
return aDate === bDate ? 0 : aDate < bDate ? 1 : -1; }`.
`===` on two `Date` objects is reference equality; `aDate` and `bDate` are
distinct `Date` instances for distinct rows (each row and each `?? new Date(0)`
fallback allocates its own object), so the `0` branch never fires and the
comparator reduces to `aDate < bDate ? 1 : -1`. -/
def compareFn (a b : TodoItem) : Int :=
  if dateVal a < dateVal b then 1 else -1

/-- Holds when `a` may stay before `b` under the comparator: `compareFn a b ≤ 0`. -/
def sortLe (a b : TodoItem) : Bool := compareFn a b ≤ 0

/-- Embeds `filteredTodos` (part_000 lines 245-260): `todos.filter(...).sort(...)`. -/
def filteredTodos (todos : List TodoItem) (filter : FilterOptions) : List TodoItem :=
  jsSort sortLe (todos.filter (filterPred filter))

/-- The render computation of part_000 (lines 245-260 and 288-295): the `FlatList`
data is `filteredTodos`.  `todos.filter` allocates a fresh array and the in-place
`sort` mutates only that copy, so the `todos` state is untouched.  Returns
`(data shown, component state after render)`. -/
def render (s : StoreState) (filter : FilterOptions) : List TodoItem × StoreState :=
  (filteredTodos s.todos filter, s)

/-- Embeds `addTodo` (part_000 lines 210-228).  `ok` tells whether the persistence calls
succeed (the environment).  On success the new row (key `newId`) is inserted and
the whole set re-read; on failure the local fallback task
`{ id: Date.now().toString(), text, done: false, createdAt: new Date() }` is
appended and the error banner set.  Returns `(new component state, new DB)`. -/
def addTodo (s : StoreState) (db : List TodoItem) (ok : Bool) (newId : String)
    (now : Nat) (text : String) : StoreState × List TodoItem :=
  if ok then
    let db' := addTodoToDB db newId text now
    ({ todos := getAllTodos db', dbError := none }, db')
  else
    ({ todos := s.todos ++
          [{ id := toString now, text := text, done := false, createdAt := some now }],
       dbError := some "Erro ao adicionar tarefa" }, db)

/-- Embeds `toggleTodo` (part_000 lines 230-243).  On success the row is flipped in the
DB and the whole set re-read; on failure the in-memory map fallback
`todo.id === id ? { ...todo, done: !todo.done } : todo` runs and the error
banner is set.  Returns `(new component state, new DB)`. -/
def toggleTodo (s : StoreState) (db : List TodoItem) (ok : Bool) (id : String) :
    StoreState × List TodoItem :=
  if ok then
    let db' := toggleTodoStatus db id
    ({ todos := getAllTodos db', dbError := none }, db')
  else
    ({ todos := s.todos.map fun todo =>
          if todo.id == id then { todo with done := !todo.done } else todo,
       dbError := some "Erro ao atualizar tarefa" }, db)

/-- The placeholder task set of the load-failure path (part_000 lines 198-201);
`now` is the millisecond value of the two `new Date()` calls. -/
def placeholderTodos (now : Nat) : List TodoItem :=
  [{ id := "1", text := "Exemplo de tarefa 1", done := false, createdAt := some now },
   { id := "2", text := "Exemplo de tarefa concluída", done := true, createdAt := some now }]

/-- The initial-load effect (part_000 lines 189-206): on success the store is the
full read; on failure the fixed placeholder set is shown and the banner set. -/
def loadTodos (db : List TodoItem) (ok : Bool) (now : Nat) : StoreState :=
  if ok then { todos := getAllTodos db, dbError := none }
  else { todos := placeholderTodos now, dbError := some "Erro ao carregar tarefas" }

/-- Embeds `AddTodoForm.handlePress` (part_000 lines 117-123): rejects input whose trim is
empty without touching anything; otherwise calls `addTodoHandler(text)` — the
untrimmed `text` — and clears the field.
Returns `(form text, component state, DB)` afterwards. -/
def handlePress (text : String) (s : StoreState) (db : List TodoItem) (ok : Bool)
    (newId : String) (now : Nat) : String × StoreState × List TodoItem :=
  if (jsTrim text).length == 0 then (text, s, db)
  else
    let r := addTodo s db ok newId now text
    ("", r.1, r.2)

/-- The ids of a task collection. -/
def idsOf (todos : List TodoItem) : List String := todos.map (·.id)

/-- The states of the `TodoList` component reachable through its operations
(initial state, the load effect, `addTodo`, `toggleTodo`), the environment —
persistence success/failure, DB read results, clock values, generated row keys —
being fully nondeterministic. -/
inductive Reachable : StoreState → Prop where
  | init : Reachable { todos := [], dbError := none }
  | load (s : StoreState) (db : List TodoItem) (ok : Bool) (now : Nat) :
      Reachable s → Reachable (loadTodos db ok now)
  | add (s : StoreState) (db : List TodoItem) (ok : Bool) (newId : String)
      (now : Nat) (text : String) :
      Reachable s → Reachable (addTodo s db ok newId now text).1
  | toggle (s : StoreState) (db : List TodoItem) (ok : Bool) (id : String) :
      Reachable s → Reachable (toggleTodo s db ok id).1

/-- Reachability under a benign environment: every successful persistence read
returns a collection whose ids are pairwise distinct (the DB's primary keys),
and the clock value stamped on a failed create differs from every id already in
the in-memory collection. -/
inductive ReachableFresh : StoreState → Prop where
  | init : ReachableFresh { todos := [], dbError := none }
  | load (s : StoreState) (db : List TodoItem) (ok : Bool) (now : Nat) :
      ReachableFresh s → (idsOf db).Nodup → ReachableFresh (loadTodos db ok now)
  | addOk (s : StoreState) (db : List TodoItem) (newId : String) (now : Nat)
      (text : String) :
      ReachableFresh s → (idsOf (addTodoToDB db newId text now)).Nodup →
      ReachableFresh (addTodo s db true newId now text).1
  | addFail (s : StoreState) (db : List TodoItem) (newId : String) (now : Nat)
      (text : String) :
      ReachableFresh s → toString now ∉ idsOf s.todos →
      ReachableFresh (addTodo s db false newId now text).1
  | toggle (s : StoreState) (db : List TodoItem) (ok : Bool) (id : String) :
      ReachableFresh s → (idsOf db).Nodup → ReachableFresh (toggleTodo s db ok id).1

end Persisted

/-! ## Properties of the sort model -/

theorem jsInsert_perm {α : Type} (le : α → α → Bool) (x : α) (l : List α) :
    (jsInsert le x l).Perm (x :: l) := by
  induction l with
  | nil => simp [jsInsert]
  | cons y ys ih =>
    simp only [jsInsert]
    by_cases h : le x y
    · simp [h]
    · simp only [h, if_neg]
      exact (List.Perm.cons y ih).trans (List.Perm.swap x y ys)

theorem jsSort_perm {α : Type} (le : α → α → Bool) (l : List α) :
    (jsSort le l).Perm l := by
  induction l with
  | nil => simp [jsSort]
  | cons x xs ih =>
    exact (jsInsert_perm le x (jsSort le xs)).trans (List.Perm.cons x ih)

theorem jsSort_length {α : Type} (le : α → α → Bool) (l : List α) :
    (jsSort le l).length = l.length :=
  (jsSort_perm le l).length_eq

theorem mem_jsInsert {α : Type} (le : α → α → Bool) (x a : α) (l : List α) :
    a ∈ jsInsert le x l ↔ a = x ∨ a ∈ l := by
  rw [(jsInsert_perm le x l).mem_iff]; simp

theorem jsInsert_pairwise {α : Type} (le : α → α → Bool)
    (htrans : ∀ a b c, le a b = true → le b c = true → le a c = true)
    (htot : ∀ a b, le a b = true ∨ le b a = true)
    (x : α) (l : List α) (h : l.Pairwise (fun a b => le a b = true)) :
    (jsInsert le x l).Pairwise (fun a b => le a b = true) := by
  induction l with
  | nil => simp [jsInsert]
  | cons y ys ih =>
    rcases List.pairwise_cons.mp h with ⟨hy, hys⟩
    by_cases hxy : le x y
    · simp only [jsInsert, if_pos hxy]
      refine List.pairwise_cons.mpr ⟨?_, h⟩
      intro z hz
      rcases List.mem_cons.mp hz with rfl | hz
      · exact hxy
      · exact htrans x y z hxy (hy z hz)
    · simp only [jsInsert, if_neg hxy]
      refine List.pairwise_cons.mpr ⟨?_, ih hys⟩
      intro z hz
      rcases (mem_jsInsert le x z ys).mp hz with rfl | hz
      · rcases htot y z with h' | h'
        · exact h'
        · exact absurd h' (by simpa using hxy)
      · exact hy z hz

theorem jsSort_pairwise {α : Type} (le : α → α → Bool)
    (htrans : ∀ a b c, le a b = true → le b c = true → le a c = true)
    (htot : ∀ a b, le a b = true ∨ le b a = true)
    (l : List α) : (jsSort le l).Pairwise (fun a b => le a b = true) := by
  induction l with
  | nil => simp [jsSort]
  | cons x xs ih => exact jsInsert_pairwise le htrans htot x (jsSort le xs) ih

namespace Early

theorem sortLe_done_iff (a b : TodoItem) :
    sortLe a b = true ↔ (a.done = true → b.done = true) := by
  unfold sortLe compareFn
  cases ha : a.done <;> cases hb : b.done <;> simp [ha, hb]

theorem jsInsert_not_done (x : TodoItem) (hx : x.done = false) (l : List TodoItem) :
    jsInsert sortLe x l = x :: l := by
  cases l with
  | nil => rfl
  | cons y ys =>
    have h : sortLe x y = true := (sortLe_done_iff x y).mpr (fun h => by rw [hx] at h; cases h)
    simp [jsInsert, h]

theorem sortLe_done_not_done (x a : TodoItem) (hx : x.done = true) (ha : a.done = false) :
    sortLe x a = false := by
  rw [← Bool.not_eq_true, sortLe_done_iff]
  simp [hx, ha]

theorem jsInsert_done_append (x : TodoItem) (hx : x.done = true)
    (A B : List TodoItem) (hA : ∀ a ∈ A, a.done = false) (hB : ∀ b ∈ B, b.done = true) :
    jsInsert sortLe x (A ++ B) = A ++ x :: B := by
  induction A with
  | nil =>
    simp only [List.nil_append]
    cases B with
    | nil => rfl
    | cons b bs =>
      have h : sortLe x b = true :=
        (sortLe_done_iff x b).mpr (fun _ => hB b (List.mem_cons_self b bs))
      simp [jsInsert, h]
  | cons a as ih =>
    have ha : a.done = false := hA a (List.mem_cons_self a as)
    have h : sortLe x a = false := sortLe_done_not_done x a hx ha
    simp only [List.cons_append, jsInsert, h, Bool.false_eq_true, if_false]
    rw [List.append_eq, ih (fun b hb => hA b (List.mem_cons_of_mem a hb))]

/-- The early sort is exactly the stable partition: pending tasks first (in their
original relative order), then done tasks (in their original relative order). -/
theorem jsSort_early_partition (l : List TodoItem) :
    jsSort sortLe l =
      (l.filter fun t => !t.done) ++ (l.filter fun t => t.done) := by
  induction l with
  | nil => rfl
  | cons x xs ih =>
    show jsInsert sortLe x (jsSort sortLe xs) = _
    rw [ih]
    cases hx : x.done with
    | false =>
      rw [jsInsert_not_done x hx]
      simp [List.filter_cons, hx]
    | true =>
      rw [jsInsert_done_append x hx _ _
        (fun a ha => by
          have := List.of_mem_filter ha
          simpa using this)
        (fun b hb => by
          have := List.of_mem_filter hb
          simpa using this)]
      simp [List.filter_cons, hx]

end Early

namespace Persisted

theorem sortLe_date_iff (a b : TodoItem) :
    sortLe a b = true ↔ dateVal b ≤ dateVal a := by
  unfold sortLe compareFn
  by_cases h : dateVal a < dateVal b
  · simp only [h, if_true, decide_eq_true_eq]
    omega
  · simp only [h, if_false, decide_eq_true_eq]
    omega

theorem sortLe_trans (a b c : TodoItem) :
    sortLe a b = true → sortLe b c = true → sortLe a c = true := by
  rw [sortLe_date_iff, sortLe_date_iff, sortLe_date_iff]
  omega

theorem sortLe_total (a b : TodoItem) : sortLe a b = true ∨ sortLe b a = true := by
  rw [sortLe_date_iff, sortLe_date_iff]
  omega

end Persisted

namespace Persisted

theorem idsOf_map_toggle (todos : List TodoItem) (id : String) :
    idsOf (todos.map fun todo =>
      if todo.id == id then { todo with done := !todo.done } else todo) = idsOf todos := by
  unfold idsOf
  rw [List.map_map]
  apply List.map_congr_left
  intro t _
  by_cases h : t.id = id <;> simp [h]

theorem idsOf_toggleTodoStatus (db : List TodoItem) (id : String) :
    idsOf (toggleTodoStatus db id) = idsOf db :=
  idsOf_map_toggle db id

theorem idsOf_append_single (l : List TodoItem) (t : TodoItem) :
    idsOf (l ++ [t]) = idsOf l ++ [t.id] := by
  simp [idsOf]

theorem nodup_idsOf_append (l : List TodoItem) (t : TodoItem)
    (h : (idsOf l).Nodup) (hfresh : t.id ∉ idsOf l) : (idsOf (l ++ [t])).Nodup := by
  rw [idsOf_append_single]
  simp [List.nodup_append, h, hfresh]

end Persisted

/-! ## The claims -/

/-- Claim C1: the filter/sort engine orders its output by the documented policy.
Persisted version: for every collection and filter mode the displayed sequence is
sorted primarily by `createdAt` descending (newest first).  Early version: the
displayed sequence is the not-done tasks followed by the done tasks, each group
keeping the relative order of the filtered input (stable tie-break). -/
theorem claim_C1_sort_policy :
    (∀ (todos : List Persisted.TodoItem) (f : Persisted.FilterOptions),
      (Persisted.filteredTodos todos f).Pairwise
        (fun a b => Persisted.dateVal b ≤ Persisted.dateVal a)) ∧
    (∀ (todos : List Early.TodoItem) (ft : Early.FilterType),
      (Early.render todos ft).1 =
        ((Early.getFilteredTodos todos ft).filter fun t => !t.done) ++
        ((Early.getFilteredTodos todos ft).filter fun t => t.done)) := by
  constructor
  · intro todos f
    have h := jsSort_pairwise Persisted.sortLe Persisted.sortLe_trans
      Persisted.sortLe_total (todos.filter (Persisted.filterPred f))
    exact h.imp (fun hab => (Persisted.sortLe_date_iff _ _).mp hab)
  · intro todos ft
    cases ft <;> exact Early.jsSort_early_partition _

/-- Claim C2 fails as stated: in the early version with filter "all",
`getFilteredTodos` returns the state array itself and the in-place sort reorders
it — here a done task stored ahead of a pending one gets swapped in the stored
collection by the mere computation of the visible list. -/
theorem claim_C2_counterexample :
    (Early.render
        [{ id := "1", value := "a", done := true },
         { id := "2", value := "b", done := false }] Early.FilterType.all).2 ≠
      [{ id := "1", value := "a", done := true },
       { id := "2", value := "b", done := false }] := by
  decide

/-- Claim C2 (amended): the filter/sort computation leaves the stored collection
unchanged in the persisted version for every filter mode, and in the early
version for the Pending and Completed modes; in the early version's All mode the
in-place sort may reorder the stored todos array, though its content is
preserved as a multiset (the state stays a permutation of its old value). -/
theorem claim_C2_amended :
    (∀ (s : Persisted.StoreState) (f : Persisted.FilterOptions),
      (Persisted.render s f).2 = s) ∧
    (∀ (todos : List Early.TodoItem) (ft : Early.FilterType),
      ft ≠ Early.FilterType.all → (Early.render todos ft).2 = todos) ∧
    (∀ todos : List Early.TodoItem,
      ((Early.render todos Early.FilterType.all).2).Perm todos) := by
  refine ⟨fun s f => rfl, ?_, ?_⟩
  · intro todos ft h
    cases ft with
    | all => exact absurd rfl h
    | pending => rfl
    | completed => rfl
  · intro todos
    exact jsSort_perm _ todos

/-- Witness for the amended claim C2 at a concrete state and mode. -/
theorem claim_C2_amended_witness :
    (Early.render [{ id := "1", value := "a", done := true }]
        Early.FilterType.pending).2 =
      [{ id := "1", value := "a", done := true }] :=
  claim_C2_amended.2.1 [{ id := "1", value := "a", done := true }]
    Early.FilterType.pending (by decide)

/-- Claim C3: the displayed set is exactly the subset of the collection
satisfying the mode's predicate, in both versions: the displayed list is a
permutation of the filtered collection (All → the whole collection, Pending →
the tasks with `done = false`, Done/completed → the tasks with `done = true`). -/
theorem claim_C3_filter_exact :
    (∀ (todos : List Persisted.TodoItem) (f : Persisted.FilterOptions),
      (Persisted.filteredTodos todos f).Perm
        (todos.filter (Persisted.filterPred f))) ∧
    (∀ todos : List Persisted.TodoItem,
      (Persisted.filteredTodos todos Persisted.FilterOptions.All).Perm todos) ∧
    (∀ todos : List Persisted.TodoItem,
      (Persisted.filteredTodos todos Persisted.FilterOptions.Pending).Perm
        (todos.filter fun t => !t.done)) ∧
    (∀ todos : List Persisted.TodoItem,
      (Persisted.filteredTodos todos Persisted.FilterOptions.Done).Perm
        (todos.filter fun t => t.done)) ∧
    (∀ (todos : List Early.TodoItem) (ft : Early.FilterType),
      ((Early.render todos ft).1).Perm (Early.getFilteredTodos todos ft)) ∧
    (∀ todos : List Early.TodoItem,
      ((Early.render todos Early.FilterType.all).1).Perm todos) := by
  refine ⟨fun todos f => jsSort_perm _ _, ?_, ?_, ?_, ?_, fun todos => jsSort_perm _ _⟩
  · intro todos
    have hfilter : todos.filter (Persisted.filterPred Persisted.FilterOptions.All) = todos :=
      List.filter_eq_self.mpr (fun t _ => rfl)
    show (jsSort Persisted.sortLe
        (todos.filter (Persisted.filterPred Persisted.FilterOptions.All))).Perm todos
    rw [hfilter]
    exact jsSort_perm _ _
  · intro todos
    exact jsSort_perm _ _
  · intro todos
    exact jsSort_perm _ _
  · intro todos ft
    cases ft <;> exact jsSort_perm _ _

theorem string_eq_empty_of_length (s : String) (h : s.length = 0) : s = "" := by
  cases s with
  | mk data =>
    simp [String.length] at h
    rw [h]

theorem jsTrim_beq_false (text : String) (h : jsTrim text ≠ "") :
    ((jsTrim text).length == 0) = false := by
  rw [beq_eq_false_iff_ne]
  intro hlen
  exact h (string_eq_empty_of_length _ hlen)

/-- Claim C4 fails as stated: submitting the non-blank input "a" while the
Done/"completed" filter is active leaves the visible (filtered) task count
unchanged — the new task is pending, so it is filtered out of the visible list
and the count does not increase by one. -/
theorem claim_C4_counterexample :
    jsTrim "a" ≠ "" ∧
    ¬ ((Early.render (Early.handlePress "a" [] "id1").2
          Early.FilterType.completed).1.length =
        (Early.render ([] : List Early.TodoItem)
          Early.FilterType.completed).1.length + 1) := by
  decide

/-- Claim C4 (amended): for every input whose trimmed form is non-empty, the add
operation appends exactly one new task with `done = false` to the collection —
in the early version and on both the success and the failure path of the
persisted version — and the visible (filtered) count grows by exactly one under
the All and Pending filters; under the Done/"completed" filter the visible count
is unchanged because the new task is pending. -/
theorem claim_C4_add_count (text : String) (h : jsTrim text ≠ "") :
    (∀ (todos : List Early.TodoItem) (newId : String),
      (Early.handlePress text todos newId).2 =
        todos ++ [{ id := newId, value := text, done := false }]) ∧
    (∀ (s : Persisted.StoreState) (db : List Persisted.TodoItem)
        (newId : String) (now : Nat),
      (Persisted.handlePress text s db true newId now).2.1.todos =
        db ++ [{ id := newId, text := text, done := false, createdAt := some now }] ∧
      (Persisted.handlePress text s db false newId now).2.1.todos =
        s.todos ++ [{ id := toString now, text := text, done := false,
                      createdAt := some now }]) ∧
    (∀ (todos : List Early.TodoItem) (newId : String) (ft : Early.FilterType),
      ft ≠ Early.FilterType.completed →
      (Early.render (todos ++ [{ id := newId, value := text, done := false }])
          ft).1.length =
        (Early.render todos ft).1.length + 1) ∧
    (∀ (l : List Persisted.TodoItem) (i : String) (c : Option Nat)
        (f : Persisted.FilterOptions), f ≠ Persisted.FilterOptions.Done →
      (Persisted.filteredTodos
          (l ++ [{ id := i, text := text, done := false, createdAt := c }])
          f).length =
        (Persisted.filteredTodos l f).length + 1) := by
  have hcond := jsTrim_beq_false text h
  refine ⟨?_, ?_, ?_, ?_⟩
  · intro todos newId
    simp [Early.handlePress, hcond, Early.addTodo]
  · intro s db newId now
    constructor <;>
      simp [Persisted.handlePress, hcond, Persisted.addTodo,
        Persisted.addTodoToDB, Persisted.getAllTodos]
  · intro todos newId ft hft
    cases ft with
    | all => simp [Early.render, jsSort_length]
    | pending => simp [Early.render, jsSort_length, List.filter_append]
    | completed => exact absurd rfl hft
  · intro l i c f hf
    cases f with
    | All =>
      simp [Persisted.filteredTodos, jsSort_length, List.filter_append,
        Persisted.filterPred]
    | Pending =>
      simp [Persisted.filteredTodos, jsSort_length, List.filter_append,
        Persisted.filterPred]
    | Done => exact absurd rfl hf

/-- Witness for the amended claim C4 at a concrete input. -/
theorem claim_C4_add_count_witness :
    (Early.handlePress "x" [] "u").2 = [{ id := "u", value := "x", done := false }] :=
  (claim_C4_add_count "x" (by decide)).1 [] "u"

/-- Claim C5: submitting an input whose trimmed form is empty creates no task,
changes nothing (component state and DB untouched in both versions), and leaves
the input field's text as it was. -/
theorem claim_C5_blank_rejected (text : String) (h : jsTrim text = "") :
    (∀ (todos : List Early.TodoItem) (newId : String),
      Early.handlePress text todos newId = (text, todos)) ∧
    (∀ (s : Persisted.StoreState) (db : List Persisted.TodoItem) (ok : Bool)
        (newId : String) (now : Nat),
      Persisted.handlePress text s db ok newId now = (text, s, db)) := by
  have hcond : ((jsTrim text).length == 0) = true := by rw [h]; rfl
  constructor
  · intro todos newId
    simp [Early.handlePress, hcond]
  · intro s db ok newId now
    simp [Persisted.handlePress, hcond]

/-- Witness for claim C5 at the concrete whitespace-only input "   ". -/
theorem claim_C5_blank_rejected_witness :
    Early.handlePress "   " [] "w" = ("   ", []) :=
  (claim_C5_blank_rejected "   " (by decide)).1 [] "w"

/-- Claim C6 fails as stated: the form validates with the trimmed text but passes
the original string on — submitting " a " (non-blank after trimming) stores a
task whose text is " a ", not its trimmed form "a": stored text can carry
leading and trailing whitespace. -/
theorem claim_C6_counterexample :
    jsTrim " a " ≠ "" ∧
    (Persisted.handlePress " a " { todos := [], dbError := none } [] true
        "r" 7).2.1.todos =
      [{ id := "r", text := " a ", done := false, createdAt := some 7 }] ∧
    (" a " : String) ≠ jsTrim " a " := by
  decide

/-- Claim C6 (amended): for every accepted (non-blank-after-trim) submission, the
created task's text is the original untrimmed input string — the trim is used
only for validation — and that text is non-empty (its trim is non-empty). -/
theorem claim_C6_text_untrimmed (text : String) (h : jsTrim text ≠ "") :
    text ≠ "" ∧
    (∀ (todos : List Early.TodoItem) (newId : String),
      ((Early.handlePress text todos newId).2.map (fun t => t.value)).getLast? =
        some text) ∧
    (∀ (s : Persisted.StoreState) (db : List Persisted.TodoItem) (ok : Bool)
        (newId : String) (now : Nat),
      (((Persisted.handlePress text s db ok newId now).2.1.todos).map
        (fun t => t.text)).getLast? = some text) := by
  have hcond := jsTrim_beq_false text h
  refine ⟨?_, ?_, ?_⟩
  · intro heq
    rw [heq] at h
    exact h rfl
  · intro todos newId
    simp [Early.handlePress, hcond, Early.addTodo, List.getLast?_concat]
  · intro s db ok newId now
    cases ok <;>
      simp [Persisted.handlePress, hcond, Persisted.addTodo,
        Persisted.addTodoToDB, Persisted.getAllTodos, List.getLast?_concat]

/-- Witness for the amended claim C6 at the concrete input " b ". -/
theorem claim_C6_text_untrimmed_witness :
    ((Early.handlePress " b " [] "u").2.map (fun t => t.value)).getLast? =
      some " b " :=
  (claim_C6_text_untrimmed " b " (by decide)).2.1 [] "u"

/-- Claim C7: toggle is fully characterized pointwise — in the persisted
version's in-memory fallback, in the (spec-modelled) DB-level toggle, and in the
early version: each position keeps its identity fields (`id`, `text`/`value`,
`createdAt`), a matching task's `done` is negated, a non-matching task is
untouched, and when no task carries the id the collection is unchanged. -/
theorem claim_C7_toggle_pointwise :
    (∀ (todos : List Persisted.TodoItem) (e : Option String)
        (db : List Persisted.TodoItem) (id : String),
      List.Forall₂ (fun t t' =>
          if t.id = id then
            t'.id = t.id ∧ t'.text = t.text ∧ t'.createdAt = t.createdAt ∧
              t'.done = !t.done
          else t' = t)
        todos ((Persisted.toggleTodo ⟨todos, e⟩ db false id).1.todos)) ∧
    (∀ (todos : List Persisted.TodoItem) (e : Option String)
        (db : List Persisted.TodoItem) (id : String),
      (∀ t ∈ todos, t.id ≠ id) →
      (Persisted.toggleTodo ⟨todos, e⟩ db false id).1.todos = todos) ∧
    (∀ (db : List Persisted.TodoItem) (id : String),
      List.Forall₂ (fun t t' =>
          if t.id = id then
            t'.id = t.id ∧ t'.text = t.text ∧ t'.createdAt = t.createdAt ∧
              t'.done = !t.done
          else t' = t)
        db (Persisted.toggleTodoStatus db id)) ∧
    (∀ (db : List Persisted.TodoItem) (id : String),
      (∀ t ∈ db, t.id ≠ id) → Persisted.toggleTodoStatus db id = db) ∧
    (∀ (todos : List Early.TodoItem) (id : String),
      List.Forall₂ (fun t t' =>
          if t.id = id then
            t'.id = t.id ∧ t'.value = t.value ∧ t'.done = !t.done
          else t' = t)
        todos (Early.toggleTodo todos id)) ∧
    (∀ (todos : List Early.TodoItem) (id : String),
      (∀ t ∈ todos, t.id ≠ id) → Early.toggleTodo todos id = todos) := by
  refine ⟨?_, ?_, ?_, ?_, ?_, ?_⟩
  · intro todos e db id
    show List.Forall₂ _ todos (todos.map _)
    rw [List.forall₂_map_right_iff, List.forall₂_same]
    intro t _
    by_cases h : t.id = id <;> simp [h]
  · intro todos e db id hno
    show todos.map _ = todos
    conv_rhs => rw [← List.map_id todos]
    apply List.map_congr_left
    intro t ht
    simp [hno t ht]
  · intro db id
    unfold Persisted.toggleTodoStatus
    rw [List.forall₂_map_right_iff, List.forall₂_same]
    intro t _
    by_cases h : t.id = id <;> simp [h]
  · intro db id hno
    unfold Persisted.toggleTodoStatus
    conv_rhs => rw [← List.map_id db]
    apply List.map_congr_left
    intro t ht
    simp [hno t ht]
  · intro todos id
    unfold Early.toggleTodo
    rw [List.forall₂_map_right_iff, List.forall₂_same]
    intro t _
    by_cases h : t.id = id <;> simp [h]
  · intro todos id hno
    unfold Early.toggleTodo
    conv_rhs => rw [← List.map_id todos]
    apply List.map_congr_left
    intro t ht
    simp [hno t ht]

/-- Witness for claim C7: toggling a non-existent id changes nothing, at a
concrete one-task collection. -/
theorem claim_C7_toggle_pointwise_witness :
    Early.toggleTodo [{ id := "a", value := "t", done := false }] "z" =
      [{ id := "a", value := "t", done := false }] :=
  claim_C7_toggle_pointwise.2.2.2.2.2 [{ id := "a", value := "t", done := false }]
    "z" (by decide)

/-- Claim C8: schema migration is idempotent — running it twice gives the same
schema version and table contents as running it once, and it is a no-op when the
stored version already equals the target. -/
theorem claim_C8_migration_idempotent (target : Nat) (s : Persisted.DBState) :
    Persisted.migrateDB target (Persisted.migrateDB target s) =
      Persisted.migrateDB target s ∧
    (s.userVersion = target → Persisted.migrateDB target s = s) := by
  constructor
  · by_cases h1 : s.userVersion < target
    · simp [Persisted.migrateDB, h1, Nat.lt_irrefl]
    · simp [Persisted.migrateDB, h1]
  · intro heq
    simp [Persisted.migrateDB, heq, Nat.lt_irrefl]

/-- Witness for claim C8 at a concrete store state already at the target. -/
theorem claim_C8_migration_idempotent_witness :
    Persisted.migrateDB 1 (Persisted.migrateDB 1 ⟨1, none⟩) =
        Persisted.migrateDB 1 ⟨1, none⟩ ∧
      Persisted.migrateDB 1 (⟨1, none⟩ : Persisted.DBState) = ⟨1, none⟩ :=
  ⟨(claim_C8_migration_idempotent 1 ⟨1, none⟩).1,
   (claim_C8_migration_idempotent 1 ⟨1, none⟩).2 rfl⟩

/-- Claim C9: when the persistence write fails during create, the in-memory
count still increases by exactly one — the locally constructed task with the
given text and `done = false` is appended — the error banner becomes set, and
the DB is left as it was. -/
theorem claim_C9_create_failure_fallback (s : Persisted.StoreState)
    (db : List Persisted.TodoItem) (newId : String) (now : Nat) (text : String) :
    (Persisted.addTodo s db false newId now text).1.todos =
      s.todos ++ [{ id := toString now, text := text, done := false,
                    createdAt := some now }] ∧
    (Persisted.addTodo s db false newId now text).1.todos.length =
      s.todos.length + 1 ∧
    (Persisted.addTodo s db false newId now text).1.dbError =
      some "Erro ao adicionar tarefa" ∧
    (Persisted.addTodo s db false newId now text).2 = db := by
  refine ⟨rfl, ?_, rfl, rfl⟩
  simp [Persisted.addTodo]

/-- Claim C10 fails as stated: two failed creates during the same millisecond
(`Date.now()` returning 5 both times) both get the local fallback id `"5"`, so a
reachable state holds two tasks with the same id. -/
theorem claim_C10_counterexample :
    Persisted.Reachable
        (Persisted.addTodo
          (Persisted.addTodo { todos := [], dbError := none } [] false "u1" 5 "a").1
          [] false "u2" 5 "b").1 ∧
    ¬ (Persisted.idsOf
        (Persisted.addTodo
          (Persisted.addTodo { todos := [], dbError := none } [] false "u1" 5 "a").1
          [] false "u2" 5 "b").1.todos).Nodup := by
  constructor
  · exact Persisted.Reachable.add _ _ _ _ _ _
      (Persisted.Reachable.add _ _ _ _ _ _ Persisted.Reachable.init)
  · decide

/-- Claim C10 (amended): ids are pairwise distinct in every reachable state of
the persisted store, provided the environment is benign — every successful
persistence read returns rows with pairwise-distinct ids (the DB's primary
keys), and the millisecond-timestamp id assigned by a failed create differs from
every id already present (which two failed creates in one millisecond would
violate). -/
theorem claim_C10_unique_ids (s : Persisted.StoreState)
    (h : Persisted.ReachableFresh s) : (Persisted.idsOf s.todos).Nodup := by
  induction h with
  | init => simp [Persisted.idsOf]
  | load s' db ok now hprev hdb ih =>
    cases ok with
    | true => simpa [Persisted.loadTodos, Persisted.getAllTodos] using hdb
    | false =>
      have hred : (Persisted.loadTodos db false now).todos =
          Persisted.placeholderTodos now := rfl
      have hids : Persisted.idsOf (Persisted.placeholderTodos now) = ["1", "2"] := rfl
      rw [hred, hids]
      decide
  | addOk s' db newId now text hprev hdb ih =>
    simpa [Persisted.addTodo, Persisted.getAllTodos] using hdb
  | addFail s' db newId now text hprev hfresh ih =>
    have hres := Persisted.nodup_idsOf_append s'.todos
      { id := toString now, text := text, done := false, createdAt := some now }
      ih hfresh
    simpa [Persisted.addTodo] using hres
  | toggle s' db ok id hprev hdb ih =>
    cases ok with
    | true =>
      have : Persisted.idsOf (Persisted.toggleTodoStatus db id) =
          Persisted.idsOf db := Persisted.idsOf_toggleTodoStatus db id
      simpa [Persisted.toggleTodo, Persisted.getAllTodos, this] using hdb
    | false =>
      have hred : (Persisted.toggleTodo s' db false id).1.todos =
          s'.todos.map (fun todo =>
            if todo.id == id then { todo with done := !todo.done } else todo) := rfl
      rw [hred, Persisted.idsOf_map_toggle]
      exact ih

/-- Witness for the amended claim C10 at a concrete reachable-with-fresh-ids
state: one failed create over the empty store. -/
theorem claim_C10_unique_ids_witness :
    (Persisted.idsOf
      (Persisted.addTodo { todos := [], dbError := none } [] false "u" 5
        "a").1.todos).Nodup :=
  claim_C10_unique_ids _
    (Persisted.ReachableFresh.addFail { todos := [], dbError := none } [] "u" 5 "a"
      Persisted.ReachableFresh.init (by decide))
